import Mathlib

/-!
Verification of the ATC surveillance-and-separation pipeline.

The definitions below are a shallow embedding of the C++ sources of the
repository.  Machine doubles are modelled as real numbers; wall-clock and
steady-clock timestamps are modelled as natural-number parameters passed to
the operations that read the clock.  The repository contains several
iterations of the same classes (the source tree concatenates them); where two
iterations of one function differ, both are embedded, each in a namespace
documenting its source location.
-/

namespace ATC

/-! ## Constants (src/unnamed/part_020 and src/unnamed/part_004) -/

def AIRSPACE_X_MIN : ℝ := 0
def AIRSPACE_X_MAX : ℝ := 100000
def AIRSPACE_Y_MIN : ℝ := 0
def AIRSPACE_Y_MAX : ℝ := 100000
def AIRSPACE_Z_MIN : ℝ := 15000
def AIRSPACE_Z_MAX : ℝ := 25000

def MIN_HORIZONTAL_SEPARATION : ℝ := 3000
def MIN_VERTICAL_SEPARATION : ℝ := 1000

def MIN_SPEED : ℝ := 150
def MAX_SPEED : ℝ := 500

/-- POSITION_UPDATE_INTERVAL in milliseconds (1 second). -/
def POSITION_UPDATE_INTERVAL : ℝ := 1000

/-- WARNING_COOLDOWN in seconds, src/include/core/violation_detector.h line 48
and the header embedded in src/test/core/violation_detector_test.cpp. -/
def WARNING_COOLDOWN : ℕ := 15

def DEFAULT_LOOKAHEAD_TIME : ℕ := 180

/-! ## Geometry (src/include/common/types.h) -/

structure Position where
  x : ℝ
  y : ℝ
  z : ℝ

/-- Position::isValid, src/include/common/types.h lines 15-19. -/
def Position.isValid (p : Position) : Prop :=
  AIRSPACE_X_MIN ≤ p.x ∧ p.x ≤ AIRSPACE_X_MAX ∧
  AIRSPACE_Y_MIN ≤ p.y ∧ p.y ≤ AIRSPACE_Y_MAX ∧
  AIRSPACE_Z_MIN ≤ p.z ∧ p.z ≤ AIRSPACE_Z_MAX

noncomputable instance (p : Position) : Decidable p.isValid := by
  unfold Position.isValid; infer_instance

structure Velocity where
  vx : ℝ
  vy : ℝ
  vz : ℝ

/-- Velocity::getSpeed, src/include/common/types.h lines 26-28. -/
noncomputable def Velocity.getSpeed (v : Velocity) : ℝ :=
  Real.sqrt (v.vx * v.vx + v.vy * v.vy + v.vz * v.vz)

/-- Velocity::setFromSpeedAndHeading, src/include/common/types.h lines 31-36.
The vertical component vz is left unchanged by the source. -/
noncomputable def Velocity.setFromSpeedAndHeading
    (v : Velocity) (speed heading_deg : ℝ) : Velocity :=
  let heading_rad := heading_deg * Real.pi / 180
  { vx := speed * Real.cos heading_rad
    vy := speed * Real.sin heading_rad
    vz := v.vz }

inductive AircraftStatus where
  | ENTERING
  | CRUISING
  | HOLDING
  | EXITING
  | EMERGENCY
deriving DecidableEq, Repr

/-- The atan2 function of the C library, used by AircraftState::updateHeading. -/
noncomputable def atan2 (y x : ℝ) : ℝ :=
  if 0 < x then Real.arctan (y / x)
  else if x < 0 then
    (if 0 ≤ y then Real.arctan (y / x) + Real.pi
     else Real.arctan (y / x) - Real.pi)
  else if 0 < y then Real.pi / 2
  else if y < 0 then -(Real.pi / 2)
  else 0

/-- AircraftState, src/include/common/types.h lines 52-74. -/
structure AircraftState where
  callsign : String
  position : Position
  velocity : Velocity
  heading : ℝ
  speed : ℝ
  altitude : ℝ
  status : AircraftStatus
  timestamp : ℕ
  alert_level : ℕ

/-- Modelled from the spec: the types.h iteration used by
src/unnamed/part_012 and part_019 gives AircraftState a getSpeed member that
is not under src; spec section 3 defines Speed as the root of the sum of the
squared velocity components, identical to Velocity::getSpeed. -/
noncomputable def AircraftState.getSpeed (s : AircraftState) : ℝ :=
  s.velocity.getSpeed

/-- AircraftState::updateHeading, src/include/common/types.h lines 64-67:
heading is recomputed from the horizontal velocity and normalised to
the interval from 0 to 360. -/
noncomputable def headingOfVelocity (v : Velocity) : ℝ :=
  let h := atan2 v.vy v.vx * 180 / Real.pi
  if h < 0 then h + 360 else h

/-- The default-constructed AircraftState of src/include/common/types.h
(all numeric members zero, status ENTERING). -/
def defaultAircraftState : AircraftState :=
  { callsign := ""
    position := ⟨0, 0, 0⟩
    velocity := ⟨0, 0, 0⟩
    heading := 0
    speed := 0
    altitude := 0
    status := AircraftStatus.ENTERING
    timestamp := 0
    alert_level := 0 }

/-- ViolationInfo, the record filled by the pair checks
(src/unnamed/part_002 and the header embedded in
src/test/core/violation_detector_test.cpp). -/
structure ViolationInfo where
  aircraft1_id : String
  aircraft2_id : String
  horizontal_separation : ℝ
  vertical_separation : ℝ
  timestamp : ℕ
  is_predicted : Bool
  prediction_time : ℕ

end ATC

namespace ATC.VD1

/-!  First iteration of the violation detector,
src/src/core/violation_detector.cpp lines 1-177 (constructor taking a
lookahead time).  Its checkPairViolation (lines 74-95) tests the horizontal
distance only.  The wall-clock timestamp it stores is passed as a parameter. -/

/-- ViolationDetector::checkPairViolation,
src/src/core/violation_detector.cpp lines 74-95.  Returns the emitted
ViolationInfo, or none when no current violation is reported. -/
noncomputable def checkPairViolation (state1 state2 : ATC.AircraftState)
    (now : ℕ) : Option ATC.ViolationInfo :=
  let horiz_dist := Real.sqrt
    ((state1.position.x - state2.position.x) ^ 2 +
     (state1.position.y - state2.position.y) ^ 2)
  let vert_dist := |state1.position.z - state2.position.z|
  if horiz_dist < ATC.MIN_HORIZONTAL_SEPARATION then
    some { aircraft1_id := state1.callsign
           aircraft2_id := state2.callsign
           horizontal_separation := horiz_dist
           vertical_separation := vert_dist
           timestamp := now
           is_predicted := false
           prediction_time := 0 }
  else none

end ATC.VD1

namespace ATC.VDB

/-!  Second iteration of the violation detector,
src/src/core/violation_detector.cpp lines 178-483 (constructor taking a
channel).  Its checkPairViolation (lines 310-336) tests the horizontal and
the vertical distance. -/

/-- ViolationDetector::checkPairViolation,
src/src/core/violation_detector.cpp lines 310-336. -/
noncomputable def checkPairViolation (state1 state2 : ATC.AircraftState) :
    Option ATC.ViolationInfo :=
  let dx := state1.position.x - state2.position.x
  let dy := state1.position.y - state2.position.y
  let dz := |state1.position.z - state2.position.z|
  let horizontal_separation := Real.sqrt (dx * dx + dy * dy)
  if horizontal_separation < ATC.MIN_HORIZONTAL_SEPARATION ∧
     dz < ATC.MIN_VERTICAL_SEPARATION then
    some { aircraft1_id := state1.callsign
           aircraft2_id := state2.callsign
           horizontal_separation := horizontal_separation
           vertical_separation := dz
           timestamp := state1.timestamp
           is_predicted := false
           prediction_time := 0 }
  else none

/-- The ordered pairs produced by the nested loops
for i, for j greater than i, over a snapshot. -/
def pairsUpper {α : Type} : List α → List (α × α)
  | [] => []
  | x :: xs => xs.map (fun y => (x, y)) ++ pairsUpper xs

/-- ViolationDetector::getCurrentViolations,
src/src/core/violation_detector.cpp lines 440-455: collect the ViolationInfo
of every upper pair for which checkPairViolation reports a violation. -/
noncomputable def getCurrentViolations (snapshot : List ATC.AircraftState) :
    List ATC.ViolationInfo :=
  (pairsUpper snapshot).filterMap (fun p => checkPairViolation p.1 p.2)

end ATC.VDB

/-! ## Claim C1 -/

/-- C1 (amended): in the channel-constructed detector
(src/src/core/violation_detector.cpp lines 310-336), checkPairViolation
reports a current violation, and the ViolationInfo appears in the emitted
list, exactly when the horizontal distance is strictly below
MIN_HORIZONTAL_SEPARATION and the vertical distance is strictly below
MIN_VERTICAL_SEPARATION.  (The lookahead-constructed iteration at lines
74-95 ignores the vertical distance; see the counterexample.) -/
theorem C1_checkPairViolation_iff :
    (∀ state1 state2 : ATC.AircraftState,
      (ATC.VDB.checkPairViolation state1 state2).isSome = true ↔
        Real.sqrt ((state1.position.x - state2.position.x) ^ 2 +
                   (state1.position.y - state2.position.y) ^ 2) <
            ATC.MIN_HORIZONTAL_SEPARATION ∧
          |state1.position.z - state2.position.z| <
            ATC.MIN_VERTICAL_SEPARATION) ∧
    (∀ (snapshot : List ATC.AircraftState) (v : ATC.ViolationInfo),
      v ∈ ATC.VDB.getCurrentViolations snapshot ↔
        ∃ p ∈ ATC.VDB.pairsUpper snapshot,
          ATC.VDB.checkPairViolation p.1 p.2 = some v) := by
  constructor
  · intro state1 state2
    unfold ATC.VDB.checkPairViolation
    simp only [← pow_two]
    split_ifs with h
    · simpa using h
    · simpa using h
  · intro snapshot v
    simp [ATC.VDB.getCurrentViolations, List.mem_filterMap]

/-- C1, counterexample: the lookahead-constructed checkPairViolation
(src/src/core/violation_detector.cpp lines 74-95) reports a violation for two
aircraft at the same horizontal point although their vertical distance of
2000 is not below MIN_VERTICAL_SEPARATION, refuting the claimed
if-and-only-if for that iteration. -/
theorem C1_counterexample :
    (ATC.VD1.checkPairViolation
        { ATC.defaultAircraftState with
            callsign := "AC1", position := ⟨50000, 50000, 20000⟩ }
        { ATC.defaultAircraftState with
            callsign := "AC2", position := ⟨50000, 50000, 22000⟩ } 0).isSome
        = true ∧
      ¬ (|(20000 : ℝ) - 22000| < ATC.MIN_VERTICAL_SEPARATION) := by
  constructor
  · unfold ATC.VD1.checkPairViolation
    norm_num [ATC.MIN_HORIZONTAL_SEPARATION, Real.sqrt_zero]
  · rw [show |(20000 : ℝ) - 22000| = 2000 by rw [abs_of_nonpos] <;> norm_num]
    norm_num [ATC.MIN_VERTICAL_SEPARATION]

namespace ATC.VDB

/-- ViolationDetector::predictPosition,
src/src/core/violation_detector.cpp lines 369-378. -/
noncomputable def predictPosition (state : ATC.AircraftState)
    (time_seconds : ℝ) : ATC.Position :=
  { x := state.position.x + state.velocity.vx * time_seconds
    y := state.position.y + state.velocity.vy * time_seconds
    z := state.position.z + state.velocity.vz * time_seconds }

/-- ViolationDetector::calculateTimeToMinimumSeparation,
src/src/core/violation_detector.cpp lines 380-396: the closed-form time of
closest planar approach, clamped to zero. -/
noncomputable def calculateTimeToMinimumSeparation
    (state1 state2 : ATC.AircraftState) : ℝ :=
  let dx := state2.position.x - state1.position.x
  let dy := state2.position.y - state1.position.y
  let dvx := state2.velocity.vx - state1.velocity.vx
  let dvy := state2.velocity.vy - state1.velocity.vy
  let a := dvx * dvx + dvy * dvy
  if |a| < 1e-6 then 0
  else
    let b := 2 * (dx * dvx + dy * dvy)
    let time := -b / (2 * a)
    if time < 0 then 0 else time

end ATC.VDB

namespace ATC

/-- The planar (horizontal) distance of two positions, the quantity the
predictive test of spec section 4.4 minimises. -/
noncomputable def planarDistance (p q : Position) : ℝ :=
  Real.sqrt ((p.x - q.x) ^ 2 + (p.y - q.y) ^ 2)

end ATC

/-- At the unclamped time of closest approach the squared planar offset is
no larger than at time zero. -/
lemma closest_approach_le (dx dy dvx dvy a b t : ℝ)
    (ha : 0 < a) (hA : a = dvx * dvx + dvy * dvy)
    (hB : b = 2 * (dx * dvx + dy * dvy)) (hT : t = -b / (2 * a)) :
    (dx + dvx * t) ^ 2 + (dy + dvy * t) ^ 2 ≤ dx ^ 2 + dy ^ 2 := by
  have hane : a ≠ 0 := ne_of_gt ha
  have h1 : (dx + dvx * t) ^ 2 + (dy + dvy * t) ^ 2
      = dx ^ 2 + dy ^ 2 + (a * t ^ 2 + b * t) := by
    subst hA hB; ring
  have h2 : a * t ^ 2 + b * t = -(b ^ 2) / (4 * a) := by
    subst hT; field_simp; ring
  have h3 : -(b ^ 2) / (4 * a) ≤ 0 := by
    apply div_nonpos_of_nonpos_of_nonneg
    · simpa using sq_nonneg b
    · linarith
  rw [h1, h2]
  linarith

/-! ## Claim C3 -/

/-- C3 (amended): the closest-approach solver of the channel-constructed
detector (src/src/core/violation_detector.cpp lines 380-396) returns 0 when
the squared relative horizontal speed is below 1e-6, always returns a
non-negative real value, and the planar distance of the dead-reckoned
positions at the returned time is at most the planar distance at time zero.
(The quadratic entry-time solver of the other detector iteration can return
-1; see the counterexample.) -/
theorem C3_timeToMinSep_linear (state1 state2 : ATC.AircraftState) :
    (|(state2.velocity.vx - state1.velocity.vx) *
        (state2.velocity.vx - state1.velocity.vx) +
      (state2.velocity.vy - state1.velocity.vy) *
        (state2.velocity.vy - state1.velocity.vy)| < 1e-6 →
      ATC.VDB.calculateTimeToMinimumSeparation state1 state2 = 0) ∧
    0 ≤ ATC.VDB.calculateTimeToMinimumSeparation state1 state2 ∧
    ATC.planarDistance
        (ATC.VDB.predictPosition state1
          (ATC.VDB.calculateTimeToMinimumSeparation state1 state2))
        (ATC.VDB.predictPosition state2
          (ATC.VDB.calculateTimeToMinimumSeparation state1 state2)) ≤
      ATC.planarDistance (ATC.VDB.predictPosition state1 0)
        (ATC.VDB.predictPosition state2 0) := by
  obtain ⟨c1, ⟨x1, y1, z1⟩, ⟨vx1, vy1, vz1⟩, h1, sp1, al1, st1, t1, lv1⟩ := state1
  obtain ⟨c2, ⟨x2, y2, z2⟩, ⟨vx2, vy2, vz2⟩, h2, sp2, al2, st2, t2, lv2⟩ := state2
  simp only [ATC.VDB.calculateTimeToMinimumSeparation, ATC.planarDistance,
    ATC.VDB.predictPosition]
  split_ifs with hpar hneg
  · exact ⟨fun _ => rfl, le_refl _, le_refl _⟩
  · exact ⟨fun hc => absurd hc hpar, le_refl _, le_refl _⟩
  · push_neg at hneg
    refine ⟨fun hc => absurd hc hpar, hneg, ?_⟩
    apply Real.sqrt_le_sqrt
    have hge : (0:ℝ) ≤ (vx2 - vx1) * (vx2 - vx1) + (vy2 - vy1) * (vy2 - vy1) := by
      nlinarith [sq_nonneg (vx2 - vx1), sq_nonneg (vy2 - vy1)]
    have hpos : (0:ℝ) < (vx2 - vx1) * (vx2 - vx1) + (vy2 - vy1) * (vy2 - vy1) := by
      rcases lt_or_eq_of_le hge with hlt | heq
      · exact hlt
      · exfalso
        apply hpar
        rw [← heq]
        norm_num
    have key := closest_approach_le (x2 - x1) (y2 - y1) (vx2 - vx1) (vy2 - vy1)
      ((vx2 - vx1) * (vx2 - vx1) + (vy2 - vy1) * (vy2 - vy1))
      (2 * ((x2 - x1) * (vx2 - vx1) + (y2 - y1) * (vy2 - vy1)))
      (-(2 * ((x2 - x1) * (vx2 - vx1) + (y2 - y1) * (vy2 - vy1))) /
        (2 * ((vx2 - vx1) * (vx2 - vx1) + (vy2 - vy1) * (vy2 - vy1))))
      hpos rfl rfl rfl
    nlinarith [key]

/-- C3, witness: two aircraft with identical (zero) velocities are parallel
tracks, and the solver returns 0 for them. -/
theorem C3_timeToMinSep_linear_witness :
    ATC.VDB.calculateTimeToMinimumSeparation ATC.defaultAircraftState
      ATC.defaultAircraftState = 0 :=
  (C3_timeToMinSep_linear ATC.defaultAircraftState ATC.defaultAircraftState).1
    (by norm_num [ATC.defaultAircraftState])

namespace ATC.VDQ

/-!  Third iteration of the violation detector, embedded after the aircraft
implementation in src/src/core/aircraft.cpp (lines 154-541), with the class
header embedded at the top of src/test/core/violation_detector_test.cpp.
This iteration keeps a cooldown map last_warning_times from the
concatenated callsign pair to the steady-clock time of the last warning. -/

/-- ViolationDetector::calculateTimeToMinimumSeparation,
src/src/core/aircraft.cpp lines 401-426: the quadratic entry-time solver.
Returns -1 when the horizontal separation never reaches
MIN_HORIZONTAL_SEPARATION along the dead-reckoned tracks. -/
noncomputable def calculateTimeToMinimumSeparation
    (state1 state2 : ATC.AircraftState) : ℝ :=
  let dx := state2.position.x - state1.position.x
  let dy := state2.position.y - state1.position.y
  let dvx := state2.velocity.vx - state1.velocity.vx
  let dvy := state2.velocity.vy - state1.velocity.vy
  let a := dvx * dvx + dvy * dvy
  if |a| < 1e-6 then 0
  else
    let b := 2 * (dx * dvx + dy * dvy)
    let c := dx * dx + dy * dy -
      ATC.MIN_HORIZONTAL_SEPARATION * ATC.MIN_HORIZONTAL_SEPARATION
    let discriminant := b * b - 4 * a * c
    if discriminant < 0 then -1
    else
      let t1 := (-b + Real.sqrt discriminant) / (2 * a)
      let t2 := (-b - Real.sqrt discriminant) / (2 * a)
      if t1 < 0 ∧ t2 < 0 then -1
      else if t1 < 0 then t2
      else if t2 < 0 then t1
      else min t1 t2

/-- The cooldown map last_warning_times: concatenated pair key to the
steady-clock second of the last warning. -/
def CooldownMap : Type := String → Option ℕ

def CooldownMap.empty : CooldownMap := fun _ => none

def CooldownMap.insert (m : CooldownMap) (k : String) (t : ℕ) : CooldownMap :=
  fun q => if q = k then some t else m q

def CooldownMap.erase (m : CooldownMap) (k : String) : CooldownMap :=
  fun q => if q = k then none else m q

/-- The cooldown gate of ViolationDetector::handlePredictedConflict,
src/src/core/aircraft.cpp lines 249-282: look up the concatenated key; if a
warning went out less than WARNING_COOLDOWN seconds ago, suppress and leave
the map unchanged; otherwise record now under the key and let the warning
(resolution actions, log and alert) go out.  The Bool reports whether the
warning went out. -/
def handleWarning (m : CooldownMap) (id1 id2 : String) (now : ℕ) :
    CooldownMap × Bool :=
  let key := id1 ++ id2
  match m key with
  | some last =>
      if now - last < ATC.WARNING_COOLDOWN then (m, false)
      else (m.insert key now, true)
  | none => (m.insert key now, true)

/-- The detector state the removal operation touches. -/
structure State where
  aircraft : List ATC.AircraftState
  last_warning_times : CooldownMap

/-- ViolationDetector::removeAircraft, src/src/core/aircraft.cpp lines
499-514: drop the aircraft whose callsign matches, then erase the map key
equal to the bare callsign. -/
def removeAircraft (st : State) (callsign : String) : State :=
  { aircraft := st.aircraft.filter (fun ac => !(ac.callsign == callsign))
    last_warning_times := st.last_warning_times.erase callsign }

/-- One warning request: the pair in loop order and the steady-clock second
at which the engine handles the predicted conflict. -/
structure WarnEvent where
  id1 : String
  id2 : String
  time : ℕ

def WarnEvent.key (e : WarnEvent) : String := e.id1 ++ e.id2

/-- Run a sequence of warning requests through the cooldown gate, threading
the map; returns the emission flag of each request in order. -/
def runWarnings (m : CooldownMap) : List WarnEvent → List Bool
  | [] => []
  | e :: rest =>
      let r := handleWarning m e.id1 e.id2 e.time
      r.2 :: runWarnings r.1 rest

end ATC.VDQ

/-- Reduction of the cooldown gate when the key is present. -/
lemma handleWarning_some (m : ATC.VDQ.CooldownMap) (id1 id2 : String)
    (now last : ℕ) (h : m (id1 ++ id2) = some last) :
    ATC.VDQ.handleWarning m id1 id2 now =
      if now - last < ATC.WARNING_COOLDOWN then (m, false)
      else (m.insert (id1 ++ id2) now, true) := by
  unfold ATC.VDQ.handleWarning
  simp only [h]

/-- Reduction of the cooldown gate when the key is absent. -/
lemma handleWarning_none (m : ATC.VDQ.CooldownMap) (id1 id2 : String)
    (now : ℕ) (h : m (id1 ++ id2) = none) :
    ATC.VDQ.handleWarning m id1 id2 now =
      (m.insert (id1 ++ id2) now, true) := by
  unfold ATC.VDQ.handleWarning
  simp only [h]

/-- An emitted warning always records its time under its key. -/
lemma handleWarning_emitted (m : ATC.VDQ.CooldownMap) (id1 id2 : String)
    (now : ℕ) (h : (ATC.VDQ.handleWarning m id1 id2 now).2 = true) :
    (ATC.VDQ.handleWarning m id1 id2 now).1 (id1 ++ id2) = some now := by
  cases hm : m (id1 ++ id2) with
  | none =>
      rw [handleWarning_none m id1 id2 now hm]
      simp [ATC.VDQ.CooldownMap.insert]
  | some last =>
      rw [handleWarning_some m id1 id2 now last hm] at h ⊢
      split_ifs at h ⊢ with hc
      simp [ATC.VDQ.CooldownMap.insert]

/-- If the map records time t0 under key k, every later emitted warning for
key k happens at least WARNING_COOLDOWN seconds after t0. -/
lemma runWarnings_dominated (evs : List ATC.VDQ.WarnEvent) :
    ∀ (m : ATC.VDQ.CooldownMap) (k : String) (t0 : ℕ), m k = some t0 →
      ∀ (j : ℕ) (ej : ATC.VDQ.WarnEvent), evs.get? j = some ej →
        (ATC.VDQ.runWarnings m evs).get? j = some true →
        ej.key = k →
        t0 + ATC.WARNING_COOLDOWN ≤ ej.time := by
  induction evs with
  | nil => intro m k t0 _ j ej hj; simp at hj
  | cons e rest ih =>
      intro m k t0 hm j ej hj hflag hkey
      cases j with
      | zero =>
          rw [List.get?_cons_zero] at hj
          obtain rfl : e = ej := by injection hj
          simp only [ATC.VDQ.runWarnings] at hflag
          rw [List.get?_cons_zero] at hflag
          have hflag2 : (ATC.VDQ.handleWarning m e.id1 e.id2 e.time).2 = true := by
            injection hflag
          have hek : e.id1 ++ e.id2 = k := hkey
          rw [handleWarning_some m e.id1 e.id2 e.time t0 (hek ▸ hm)] at hflag2
          split_ifs at hflag2 with hc
          simp only [ATC.WARNING_COOLDOWN] at hc ⊢
          omega
      | succ j =>
          rw [List.get?_cons_succ] at hj
          simp only [ATC.VDQ.runWarnings] at hflag
          rw [List.get?_cons_succ] at hflag
          set m2 := (ATC.VDQ.handleWarning m e.id1 e.id2 e.time).1 with hm2
          have hdom : ∃ t1, m2 k = some t1 ∧ t0 ≤ t1 := by
            by_cases hk : e.id1 ++ e.id2 = k
            · rw [hm2, handleWarning_some m e.id1 e.id2 e.time t0 (hk ▸ hm)]
              split_ifs with hc
              · exact ⟨t0, hm, le_refl t0⟩
              · refine ⟨e.time, ?_, ?_⟩
                · simp [ATC.VDQ.CooldownMap.insert, hk]
                · simp only [ATC.WARNING_COOLDOWN] at hc
                  omega
            · have hks : ¬ (k = e.id1 ++ e.id2) := fun hkk => hk hkk.symm
              cases hme : m (e.id1 ++ e.id2) with
              | none =>
                  rw [hm2, handleWarning_none m e.id1 e.id2 e.time hme]
                  exact ⟨t0, by simp [ATC.VDQ.CooldownMap.insert, hks, hm], le_refl t0⟩
              | some last =>
                  rw [hm2, handleWarning_some m e.id1 e.id2 e.time last hme]
                  split_ifs with hc
                  · exact ⟨t0, hm, le_refl t0⟩
                  · exact ⟨t0, by simp [ATC.VDQ.CooldownMap.insert, hks, hm], le_refl t0⟩
          obtain ⟨t1, hmk, ht1⟩ := hdom
          have := ih m2 k t1 hmk j ej hj hflag hkey
          omega

/-- Over any initial map, two emitted warnings with the same key are at
least WARNING_COOLDOWN seconds apart. -/
lemma runWarnings_sep (evs : List ATC.VDQ.WarnEvent) :
    ∀ (m : ATC.VDQ.CooldownMap) (i j : ℕ) (ei ej : ATC.VDQ.WarnEvent),
      i < j → evs.get? i = some ei → evs.get? j = some ej →
      ei.key = ej.key →
      (ATC.VDQ.runWarnings m evs).get? i = some true →
      (ATC.VDQ.runWarnings m evs).get? j = some true →
      ei.time + ATC.WARNING_COOLDOWN ≤ ej.time := by
  induction evs with
  | nil => intro m i j ei ej _ hi; simp at hi
  | cons e rest ih =>
      intro m i j ei ej hij hi hj hkey hfi hfj
      simp only [ATC.VDQ.runWarnings] at hfi hfj
      cases i with
      | zero =>
          rw [List.get?_cons_zero] at hi
          obtain rfl : e = ei := by injection hi
          rw [List.get?_cons_zero] at hfi
          have hemit : (ATC.VDQ.handleWarning m e.id1 e.id2 e.time).2 = true := by
            injection hfi
          cases j with
          | zero => exact absurd hij (lt_irrefl 0)
          | succ j =>
              rw [List.get?_cons_succ] at hj
              rw [List.get?_cons_succ] at hfj
              have hrec := handleWarning_emitted m e.id1 e.id2 e.time hemit
              exact runWarnings_dominated rest
                (ATC.VDQ.handleWarning m e.id1 e.id2 e.time).1
                (e.id1 ++ e.id2) e.time hrec j ej hj hfj hkey.symm
      | succ i =>
          cases j with
          | zero => exact absurd hij (by omega)
          | succ j =>
              rw [List.get?_cons_succ] at hi hj
              rw [List.get?_cons_succ] at hfi hfj
              exact ih (ATC.VDQ.handleWarning m e.id1 e.id2 e.time).1
                i j ei ej (by omega) hi hj hkey hfi hfj

/-! ## Claim C7 -/

/-- C7 (amended): running the cooldown gate of handlePredictedConflict
(src/src/core/aircraft.cpp lines 249-282) over any sequence of predicted
conflicts, two emitted warnings with the same pair key are at least
WARNING_COOLDOWN seconds apart, so no warning for the pair went out in the
open interval of length WARNING_COOLDOWN before an emission; and a request
outside the cooldown window (no entry, or an entry at least
WARNING_COOLDOWN seconds old) is emitted and records its time in the
cooldown map.  (The queue-driven execute of the channel-constructed
detector enforces no such window; see the counterexample.) -/
theorem C7_cooldown_no_repeat_within_window :
    (∀ (evs : List ATC.VDQ.WarnEvent) (i j : ℕ)
        (ei ej : ATC.VDQ.WarnEvent),
      i < j → evs.get? i = some ei → evs.get? j = some ej →
      ei.key = ej.key →
      (ATC.VDQ.runWarnings ATC.VDQ.CooldownMap.empty evs).get? i = some true →
      (ATC.VDQ.runWarnings ATC.VDQ.CooldownMap.empty evs).get? j = some true →
      ei.time + ATC.WARNING_COOLDOWN ≤ ej.time) ∧
    (∀ (m : ATC.VDQ.CooldownMap) (id1 id2 : String) (now : ℕ),
      (m (id1 ++ id2) = none ∨
        ∃ last, m (id1 ++ id2) = some last ∧
          ATC.WARNING_COOLDOWN ≤ now - last) →
      (ATC.VDQ.handleWarning m id1 id2 now).2 = true ∧
      (ATC.VDQ.handleWarning m id1 id2 now).1 (id1 ++ id2) = some now) := by
  constructor
  · intro evs i j ei ej hij hi hj hkey hfi hfj
    exact runWarnings_sep evs ATC.VDQ.CooldownMap.empty i j ei ej hij hi hj
      hkey hfi hfj
  · intro m id1 id2 now hfresh
    rcases hfresh with hnone | ⟨last, hsome, hold⟩
    · rw [handleWarning_none m id1 id2 now hnone]
      exact ⟨rfl, by simp [ATC.VDQ.CooldownMap.insert]⟩
    · rw [handleWarning_some m id1 id2 now last hsome]
      rw [if_neg (Nat.not_lt.2 hold)]
      exact ⟨rfl, by simp [ATC.VDQ.CooldownMap.insert]⟩

/-- C7, witness: on an empty cooldown map a first warning for a pair is
emitted and recorded. -/
theorem C7_cooldown_witness :
    (ATC.VDQ.handleWarning ATC.VDQ.CooldownMap.empty "AC1" "AC2" 0).2 = true ∧
    (ATC.VDQ.handleWarning ATC.VDQ.CooldownMap.empty "AC1" "AC2" 0).1
        ("AC1" ++ "AC2") = some 0 :=
  C7_cooldown_no_repeat_within_window.2 ATC.VDQ.CooldownMap.empty
    "AC1" "AC2" 0 (Or.inl rfl)

/-! ## Claim C10 -/

/-- C10: the cooldown key is the plain concatenation of the two callsigns,
which is not injective over distinct unordered pairs: the pairs (AB, C) and
(A, BC) collide on the key ABC, and a warning recorded for the first pair
suppresses, within the cooldown window, the warning for the second pair. -/
theorem C10_cooldown_key_collision :
    ("AB" ++ "C" : String) = "A" ++ "BC" ∧
    ¬ ("AB" = "A" ∧ "C" = "BC") ∧ ¬ ("AB" = "BC" ∧ "C" = "A") ∧
    (ATC.VDQ.handleWarning ATC.VDQ.CooldownMap.empty "AB" "C" 0).2 = true ∧
    (ATC.VDQ.handleWarning
        (ATC.VDQ.handleWarning ATC.VDQ.CooldownMap.empty "AB" "C" 0).1
        "A" "BC" 5).2 = false := by
  exact ⟨rfl, by decide, by decide, rfl, rfl⟩

/-! ## Claim C6 -/

/-- C6: after a warning for the pair AB1 and CD2 is recorded,
removeAircraft AB1 (src/src/core/aircraft.cpp lines 499-514) erases only
the map key equal to the bare callsign, so the cooldown entry of the pair,
keyed AB1CD2, survives the removal, contradicting the purge the
specification requires. -/
theorem C6_removeAircraft_keeps_pair_entry :
    ((ATC.VDQ.removeAircraft
        { aircraft := []
          last_warning_times :=
            (ATC.VDQ.handleWarning ATC.VDQ.CooldownMap.empty
              "AB1" "CD2" 0).1 }
        "AB1").last_warning_times) "AB1CD2" = some 0 := by
  rfl

/-! ## Claim C3, counterexample -/

/-- C3, counterexample: the quadratic entry-time solver
(src/src/core/aircraft.cpp lines 401-426) returns -1, a negative value, for
two aircraft 10000 units apart whose relative track never crosses the
separation circle, refuting the claim that the solver is non-negative in
all cases. -/
theorem C3_counterexample :
    ATC.VDQ.calculateTimeToMinimumSeparation
        ATC.defaultAircraftState
        { ATC.defaultAircraftState with
            position := ⟨10000, 0, 0⟩, velocity := ⟨0, 1, 0⟩ } = -1 ∧
    ¬ ((0 : ℝ) ≤ -1) := by
  constructor
  · simp only [ATC.VDQ.calculateTimeToMinimumSeparation,
      ATC.defaultAircraftState, ATC.MIN_HORIZONTAL_SEPARATION]
    norm_num
  · norm_num

namespace ATC

/-- Straight-line dead reckoning of a state over dt seconds: the position
advanced by velocity times dt, the quantity spec section 4.2 calls the new
position of a cycle. -/
noncomputable def deadReckon (s : AircraftState) (dt : ℝ) : Position :=
  { x := s.position.x + s.velocity.vx * dt
    y := s.position.y + s.velocity.vy * dt
    z := s.position.z + s.velocity.vz * dt }

end ATC

namespace ATC.Aircraft

/-!  The aircraft task of src/unnamed/part_012 (three-argument constructor).
A task is the mutable AircraftState together with the stopped flag of the
underlying periodic task. -/

structure Task where
  state : ATC.AircraftState
  stopped : Bool

/-- Aircraft::Aircraft, src/unnamed/part_012 lines 11-30.  The constructor
throws unless the initial position is valid; reachability (below) carries
that validity as a precondition.  It stores callsign, position and velocity,
derives the heading from the velocity, stamps the current time and starts in
status ENTERING. -/
noncomputable def construct (callsign : String) (initial_pos : ATC.Position)
    (initial_vel : ATC.Velocity) (now : ℕ) : Task :=
  { state := { callsign := callsign
               position := initial_pos
               velocity := initial_vel
               heading := ATC.headingOfVelocity initial_vel
               speed := 0
               altitude := 0
               status := ATC.AircraftStatus.ENTERING
               timestamp := now
               alert_level := 0 }
    stopped := false }

/-- Aircraft::validateSpeed, src/unnamed/part_012 lines 179-181. -/
def validateSpeed (speed : ℝ) : Prop :=
  ATC.MIN_SPEED ≤ speed ∧ speed ≤ ATC.MAX_SPEED

noncomputable instance (speed : ℝ) : Decidable (validateSpeed speed) := by
  unfold validateSpeed; infer_instance

/-- Aircraft::validateAltitude, src/unnamed/part_012 lines 183-186. -/
def validateAltitude (altitude : ℝ) : Prop :=
  ATC.AIRSPACE_Z_MIN ≤ altitude ∧ altitude ≤ ATC.AIRSPACE_Z_MAX

noncomputable instance (altitude : ℝ) : Decidable (validateAltitude altitude) := by
  unfold validateAltitude; infer_instance

/-- Aircraft::updatePosition, src/unnamed/part_012 lines 151-176: advance
the position by velocity times dt; when the new position is valid store it,
stamp the time and promote ENTERING to CRUISING, otherwise set EXITING and
stop the task. -/
noncomputable def updatePosition (t : Task) (now : ℕ) : Task :=
  let dt := ATC.POSITION_UPDATE_INTERVAL / 1000
  let new_pos : ATC.Position :=
    { x := t.state.position.x + t.state.velocity.vx * dt
      y := t.state.position.y + t.state.velocity.vy * dt
      z := t.state.position.z + t.state.velocity.vz * dt }
  if new_pos.isValid then
    { t with state := { t.state with
        position := new_pos
        timestamp := now
        status := if t.state.status = ATC.AircraftStatus.ENTERING
                  then ATC.AircraftStatus.CRUISING
                  else t.state.status } }
  else
    { state := { t.state with status := ATC.AircraftStatus.EXITING }
      stopped := true }

/-- Aircraft::updateSpeed, src/unnamed/part_012 lines 75-92: validate the
speed, then rewrite the velocity from the new speed and the current heading
and stamp the time; the Bool is the returned success flag. -/
noncomputable def updateSpeed (t : Task) (new_speed : ℝ) (now : ℕ) :
    Task × Bool :=
  if validateSpeed new_speed then
    ({ t with state := { t.state with
         velocity := t.state.velocity.setFromSpeedAndHeading new_speed
           t.state.heading
         timestamp := now } }, true)
  else (t, false)

/-- Aircraft::updateHeading, src/unnamed/part_012 lines 95-111. -/
noncomputable def updateHeading (t : Task) (new_heading : ℝ) (now : ℕ) :
    Task × Bool :=
  if new_heading < 0 ∨ 360 ≤ new_heading then (t, false)
  else
    ({ t with state := { t.state with
         velocity := t.state.velocity.setFromSpeedAndHeading
           t.state.getSpeed new_heading
         heading := new_heading
         timestamp := now } }, true)

/-- Aircraft::updateAltitude, src/unnamed/part_012 lines 114-130: validate
against the vertical airspace bounds, then write position.z. -/
noncomputable def updateAltitude (t : Task) (new_altitude : ℝ) (now : ℕ) :
    Task × Bool :=
  if validateAltitude new_altitude then
    ({ t with state := { t.state with
         position := { t.state.position with z := new_altitude }
         timestamp := now } }, true)
  else (t, false)

/-- Aircraft::declareEmergency, src/unnamed/part_012 lines 133-138. -/
def declareEmergency (t : Task) : Task :=
  { t with state := { t.state with status := ATC.AircraftStatus.EMERGENCY } }

/-- Aircraft::cancelEmergency, src/unnamed/part_012 lines 140-145. -/
def cancelEmergency (t : Task) : Task :=
  { t with state := { t.state with status := ATC.AircraftStatus.CRUISING } }

/-- The aircraft tasks reachable by construction followed by any sequence
of periodic position advances and operator commands. -/
inductive Reachable : Task → Prop where
  | construct (callsign : String) (pos : ATC.Position) (vel : ATC.Velocity)
      (now : ℕ) (h : pos.isValid) :
      Reachable (construct callsign pos vel now)
  | updatePosition (t : Task) (now : ℕ) (h : Reachable t) :
      Reachable (updatePosition t now)
  | updateSpeed (t : Task) (s : ℝ) (now : ℕ) (h : Reachable t) :
      Reachable (updateSpeed t s now).1
  | updateHeading (t : Task) (hd : ℝ) (now : ℕ) (h : Reachable t) :
      Reachable (updateHeading t hd now).1
  | updateAltitude (t : Task) (z : ℝ) (now : ℕ) (h : Reachable t) :
      Reachable (updateAltitude t z now).1
  | declareEmergency (t : Task) (h : Reachable t) :
      Reachable (declareEmergency t)
  | cancelEmergency (t : Task) (h : Reachable t) :
      Reachable (cancelEmergency t)

end ATC.Aircraft

/-- Every reachable aircraft task keeps a valid position: the constructor
requires one, a position advance stores the new position only when it is
valid, and an altitude command writes only values inside the vertical
bounds. -/
lemma reachable_position_valid (t : ATC.Aircraft.Task)
    (h : ATC.Aircraft.Reachable t) : t.state.position.isValid := by
  induction h with
  | construct callsign pos vel now h => exact h
  | updatePosition t now h ih =>
      simp only [ATC.Aircraft.updatePosition]
      split_ifs <;> assumption
  | updateSpeed t s now h ih =>
      unfold ATC.Aircraft.updateSpeed
      split_ifs <;> exact ih
  | updateHeading t hd now h ih =>
      unfold ATC.Aircraft.updateHeading
      split_ifs <;> exact ih
  | updateAltitude t z now h ih =>
      unfold ATC.Aircraft.updateAltitude
      split_ifs with hv
      · obtain ⟨hz1, hz2⟩ := hv
        obtain ⟨hx1, hx2, hy1, hy2, _, _⟩ := ih
        exact ⟨hx1, hx2, hy1, hy2, hz1, hz2⟩
      · exact ih

  | declareEmergency t h ih => exact ih
  | cancelEmergency t h ih => exact ih

/-! ## Claim C5 -/

/-- C5: every reachable aircraft task, under construction, position
advances, speed, heading and altitude commands and emergency transitions,
exposes a state whose position lies inside the airspace volume or whose
status is EXITING. -/
theorem C5_state_valid_or_exiting (t : ATC.Aircraft.Task)
    (h : ATC.Aircraft.Reachable t) :
    t.state.position.isValid ∨ t.state.status = ATC.AircraftStatus.EXITING :=
  Or.inl (reachable_position_valid t h)

/-- C5, witness: a freshly constructed aircraft at a valid position
satisfies the invariant. -/
theorem C5_state_valid_or_exiting_witness :
    (ATC.Aircraft.construct "W01" ⟨0, 0, 20000⟩ ⟨0, 0, 0⟩ 0).state.position.isValid ∨
    (ATC.Aircraft.construct "W01" ⟨0, 0, 20000⟩ ⟨0, 0, 0⟩ 0).state.status =
      ATC.AircraftStatus.EXITING :=
  C5_state_valid_or_exiting _
    (ATC.Aircraft.Reachable.construct "W01" ⟨0, 0, 20000⟩ ⟨0, 0, 0⟩ 0
      (by constructor <;> norm_num [ATC.AIRSPACE_X_MIN, ATC.AIRSPACE_X_MAX,
        ATC.AIRSPACE_Y_MIN, ATC.AIRSPACE_Y_MAX, ATC.AIRSPACE_Z_MIN,
        ATC.AIRSPACE_Z_MAX]))

/-! ## Claim C2 -/

/-- C2 (amended): the three-argument-constructor aircraft
(src/unnamed/part_012 lines 151-176) advances the position by velocity times
dt with dt the period in seconds; when the new position is inside the
airspace volume it stores it, stamps the time of the cycle and promotes
ENTERING to CRUISING, otherwise it sets EXITING, stops the task and leaves
the stored position unchanged.  (The characteristics-constructor iteration
in src/src/core/aircraft.cpp lines 123-151 performs no status promotion on
a valid advance; see the counterexample.) -/
theorem C2_updatePosition_contract (t : ATC.Aircraft.Task) (now : ℕ) :
    ((ATC.deadReckon t.state (ATC.POSITION_UPDATE_INTERVAL / 1000)).isValid →
      (ATC.Aircraft.updatePosition t now).state.position =
          ATC.deadReckon t.state (ATC.POSITION_UPDATE_INTERVAL / 1000) ∧
        (ATC.Aircraft.updatePosition t now).state.timestamp = now ∧
        (t.state.status = ATC.AircraftStatus.ENTERING →
          (ATC.Aircraft.updatePosition t now).state.status =
            ATC.AircraftStatus.CRUISING) ∧
        (ATC.Aircraft.updatePosition t now).stopped = t.stopped) ∧
    (¬ (ATC.deadReckon t.state (ATC.POSITION_UPDATE_INTERVAL / 1000)).isValid →
      (ATC.Aircraft.updatePosition t now).state.status =
          ATC.AircraftStatus.EXITING ∧
        (ATC.Aircraft.updatePosition t now).stopped = true ∧
        (ATC.Aircraft.updatePosition t now).state.position =
          t.state.position) := by
  simp only [ATC.Aircraft.updatePosition, ATC.deadReckon]
  split_ifs with hv hst
  · exact ⟨fun _ => ⟨rfl, rfl, fun _ => rfl, rfl⟩, fun hc => absurd hv hc⟩
  · refine ⟨fun _ => ⟨rfl, rfl, fun he => absurd he hst, rfl⟩,
      fun hc => absurd hv hc⟩
  · exact ⟨fun hc => absurd hc hv, fun _ => ⟨rfl, rfl, rfl⟩⟩

/-- C2, witness: a stationary ENTERING aircraft at a valid position is
promoted to CRUISING by a position advance. -/
theorem C2_updatePosition_contract_witness :
    (ATC.Aircraft.updatePosition
        ⟨{ ATC.defaultAircraftState with position := ⟨0, 0, 20000⟩ }, false⟩
        5).state.status = ATC.AircraftStatus.CRUISING := by
  have h := (C2_updatePosition_contract
      ⟨{ ATC.defaultAircraftState with position := ⟨0, 0, 20000⟩ }, false⟩ 5).1
    (by
      norm_num [ATC.defaultAircraftState, ATC.deadReckon, ATC.Position.isValid,
        ATC.POSITION_UPDATE_INTERVAL, ATC.AIRSPACE_X_MIN, ATC.AIRSPACE_X_MAX,
        ATC.AIRSPACE_Y_MIN, ATC.AIRSPACE_Y_MAX, ATC.AIRSPACE_Z_MIN,
        ATC.AIRSPACE_Z_MAX])
  exact h.2.2.1 rfl

namespace ATC.AircraftFC

/-!  The characteristics-constructor aircraft iteration of
src/src/core/aircraft.cpp lines 1-153. -/

/-- Aircraft::updatePosition, src/src/core/aircraft.cpp lines 123-151:
stores a valid advanced position together with the altitude mirror field and
the time stamp, but performs no status transition on the valid branch. -/
noncomputable def updatePosition (t : ATC.Aircraft.Task) (now : ℕ) :
    ATC.Aircraft.Task :=
  let dt := ATC.POSITION_UPDATE_INTERVAL / 1000
  let new_pos : ATC.Position :=
    { x := t.state.position.x + t.state.velocity.vx * dt
      y := t.state.position.y + t.state.velocity.vy * dt
      z := t.state.position.z + t.state.velocity.vz * dt }
  if new_pos.isValid then
    { t with state := { t.state with
        position := new_pos
        altitude := new_pos.z
        timestamp := now } }
  else
    { state := { t.state with status := ATC.AircraftStatus.EXITING }
      stopped := true }

end ATC.AircraftFC

/-- C2, counterexample: in the characteristics-constructor iteration a valid
advance of an ENTERING aircraft leaves the status ENTERING, although the
claim requires the transition to CRUISING. -/
theorem C2_counterexample :
    (ATC.AircraftFC.updatePosition
        ⟨{ ATC.defaultAircraftState with position := ⟨0, 0, 20000⟩ }, false⟩
        5).state.status = ATC.AircraftStatus.ENTERING ∧
    (ATC.deadReckon { ATC.defaultAircraftState with position := ⟨0, 0, 20000⟩ }
        (ATC.POSITION_UPDATE_INTERVAL / 1000)).isValid ∧
    ATC.AircraftStatus.ENTERING ≠ ATC.AircraftStatus.CRUISING := by
  have hval : (ATC.deadReckon
      { ATC.defaultAircraftState with position := ⟨0, 0, 20000⟩ }
      (ATC.POSITION_UPDATE_INTERVAL / 1000)).isValid := by
    norm_num [ATC.defaultAircraftState, ATC.deadReckon, ATC.Position.isValid,
      ATC.POSITION_UPDATE_INTERVAL, ATC.AIRSPACE_X_MIN, ATC.AIRSPACE_X_MAX,
      ATC.AIRSPACE_Y_MIN, ATC.AIRSPACE_Y_MAX, ATC.AIRSPACE_Z_MIN,
      ATC.AIRSPACE_Z_MAX]
  refine ⟨?_, hval, by decide⟩
  simp only [ATC.AircraftFC.updatePosition]
  split_ifs with hv
  · rfl
  · exact absurd (by
      simpa [ATC.deadReckon, ATC.defaultAircraftState] using hval) hv

/-! ## Claim C4 -/

/-- C4 (amended): updateSpeed of the three-argument-constructor aircraft
(src/unnamed/part_012 lines 75-92) succeeds exactly when MIN_SPEED and
MAX_SPEED bound the requested speed; on success the horizontal speed of the
stored velocity equals the request exactly, the heading and the vertical
velocity component are unchanged, and the full speed
(the root of vx2 plus vy2 plus vz2) equals the request whenever the
vertical component is zero.  (With a non-zero vertical component the full
speed exceeds the request; see the counterexample.) -/
theorem C4_updateSpeed_amended (t : ATC.Aircraft.Task) (s : ℝ) (now : ℕ) :
    ((ATC.Aircraft.updateSpeed t s now).2 = true ↔
      ATC.MIN_SPEED ≤ s ∧ s ≤ ATC.MAX_SPEED) ∧
    (ATC.MIN_SPEED ≤ s ∧ s ≤ ATC.MAX_SPEED →
      Real.sqrt
          ((ATC.Aircraft.updateSpeed t s now).1.state.velocity.vx *
             (ATC.Aircraft.updateSpeed t s now).1.state.velocity.vx +
           (ATC.Aircraft.updateSpeed t s now).1.state.velocity.vy *
             (ATC.Aircraft.updateSpeed t s now).1.state.velocity.vy) = s ∧
      (ATC.Aircraft.updateSpeed t s now).1.state.heading = t.state.heading ∧
      (ATC.Aircraft.updateSpeed t s now).1.state.velocity.vz =
        t.state.velocity.vz ∧
      (t.state.velocity.vz = 0 →
        (ATC.Aircraft.updateSpeed t s now).1.state.getSpeed = s)) := by
  simp only [ATC.Aircraft.updateSpeed, ATC.Aircraft.validateSpeed]
  split_ifs with h
  · refine ⟨by simpa using h, fun hs => ?_⟩
    have hs0 : (0:ℝ) ≤ s := by
      have := hs.1
      simp only [ATC.MIN_SPEED] at this
      linarith
    refine ⟨?_, rfl, rfl, fun hvz => ?_⟩
    · simp only [ATC.Velocity.setFromSpeedAndHeading]
      have e : s * Real.cos (t.state.heading * Real.pi / 180) *
            (s * Real.cos (t.state.heading * Real.pi / 180)) +
          s * Real.sin (t.state.heading * Real.pi / 180) *
            (s * Real.sin (t.state.heading * Real.pi / 180)) =
          s ^ 2 * (Real.cos (t.state.heading * Real.pi / 180) ^ 2 +
            Real.sin (t.state.heading * Real.pi / 180) ^ 2) := by ring
      rw [e, Real.cos_sq_add_sin_sq, mul_one, Real.sqrt_sq hs0]
    · simp only [ATC.AircraftState.getSpeed, ATC.Velocity.getSpeed,
        ATC.Velocity.setFromSpeedAndHeading]
      rw [hvz]
      have e : s * Real.cos (t.state.heading * Real.pi / 180) *
            (s * Real.cos (t.state.heading * Real.pi / 180)) +
          s * Real.sin (t.state.heading * Real.pi / 180) *
            (s * Real.sin (t.state.heading * Real.pi / 180)) +
          (0:ℝ) * 0 =
          s ^ 2 * (Real.cos (t.state.heading * Real.pi / 180) ^ 2 +
            Real.sin (t.state.heading * Real.pi / 180) ^ 2) := by ring
      rw [e, Real.cos_sq_add_sin_sq, mul_one, Real.sqrt_sq hs0]
  · exact ⟨by simpa using h, fun hs => absurd hs h⟩

/-- C4, witness: an aircraft with zero vertical velocity accepts speed 300
and afterwards reports speed exactly 300. -/
theorem C4_updateSpeed_amended_witness :
    (ATC.Aircraft.updateSpeed ⟨ATC.defaultAircraftState, false⟩ 300 1).2
        = true ∧
    (ATC.Aircraft.updateSpeed
        ⟨ATC.defaultAircraftState, false⟩ 300 1).1.state.getSpeed = 300 := by
  have h := C4_updateSpeed_amended ⟨ATC.defaultAircraftState, false⟩ 300 1
  have hs : ATC.MIN_SPEED ≤ (300:ℝ) ∧ (300:ℝ) ≤ ATC.MAX_SPEED := by
    norm_num [ATC.MIN_SPEED, ATC.MAX_SPEED]
  exact ⟨h.1.mpr hs, (h.2 hs).2.2.2 rfl⟩

/-- C4, counterexample: with vertical velocity 100 and heading 0, a
successful updateSpeed 300 leaves the state reporting a speed above 310,
not 300 within any small epsilon: the source rewrites only the horizontal
components and keeps vz. -/
theorem C4_counterexample :
    (ATC.Aircraft.updateSpeed
        ⟨{ ATC.defaultAircraftState with velocity := ⟨0, 0, 100⟩ }, false⟩
        300 1).2 = true ∧
    310 < (ATC.Aircraft.updateSpeed
        ⟨{ ATC.defaultAircraftState with velocity := ⟨0, 0, 100⟩ }, false⟩
        300 1).1.state.getSpeed := by
  constructor
  · simp only [ATC.Aircraft.updateSpeed, ATC.Aircraft.validateSpeed]
    rw [if_pos (by norm_num [ATC.MIN_SPEED, ATC.MAX_SPEED])]
  · simp only [ATC.Aircraft.updateSpeed, ATC.Aircraft.validateSpeed]
    rw [if_pos (by norm_num [ATC.MIN_SPEED, ATC.MAX_SPEED])]
    simp only [ATC.AircraftState.getSpeed, ATC.Velocity.getSpeed,
      ATC.Velocity.setFromSpeedAndHeading, ATC.defaultAircraftState]
    norm_num
    rw [Real.lt_sqrt (by norm_num)]
    norm_num

namespace ATC.Radar

/-!  The radar tracker, src/src/core/radar_system.cpp and
src/include/core/radar_system.h.  The uniform detection noise is modelled by
passing the detected position as a parameter; steady-clock times are natural
numbers in milliseconds. -/

def MAX_TRACK_AGE_MS : ℕ := 10000

def MIN_TRACK_QUALITY : ℤ := 30

/-- RadarTrack, src/include/core/radar_system.h lines 36-43. -/
structure RadarTrack where
  state : ATC.AircraftState
  has_transponder_response : Bool
  last_update : ℕ
  track_quality : ℤ

/-- The default-constructed RadarTrack (quality 0, no transponder). -/
def defaultTrack : RadarTrack :=
  { state := ATC.defaultAircraftState
    has_transponder_response := false
    last_update := 0
    track_quality := 0 }

/-- The track map tracks_, an association list keyed by callsign. -/
structure RState where
  tracks : List (String × RadarTrack)

/-- Lookup in the track map. -/
def findTrack : List (String × RadarTrack) → String → Option RadarTrack
  | [], _ => none
  | (c, tr) :: rest, cs => if c = cs then some tr else findTrack rest cs

/-- Write-or-refresh in the track map. -/
def upsertTrack : List (String × RadarTrack) → String → RadarTrack →
    List (String × RadarTrack)
  | [], cs, tr => [(cs, tr)]
  | (c, t0) :: rest, cs, tr =>
      if c = cs then (c, tr) :: rest else (c, t0) :: upsertTrack rest cs tr

/-- One aircraft of RadarSystem::performPrimaryScan,
src/src/core/radar_system.cpp lines 69-98: when the detected (noisy)
position is inside the airspace the track is written or refreshed, its
last_update set to now and its quality raised by 10, capped at 100;
otherwise nothing happens for this aircraft. -/
noncomputable def primaryObs (r : RState) (st : ATC.AircraftState)
    (detected : ATC.Position) (now : ℕ) : RState :=
  if detected.isValid then
    let old := (findTrack r.tracks st.callsign).getD defaultTrack
    { tracks := upsertTrack r.tracks st.callsign
        { old with
            state := { old.state with position := detected }
            last_update := now
            track_quality := min 100 (old.track_quality + 10) } }
  else r

/-- Aging of one track inside RadarSystem::updateTracks,
src/src/core/radar_system.cpp lines 116-134: quality drops by 5, floored at
0, when the track is more than one second stale. -/
def ageTrack (now : ℕ) (tr : RadarTrack) : RadarTrack :=
  if 1000 < now - tr.last_update then
    { tr with track_quality := max 0 (tr.track_quality - 5) }
  else tr

/-- RadarSystem::updateTracks, src/src/core/radar_system.cpp lines 116-134. -/
def updateTracks (r : RState) (now : ℕ) : RState :=
  { tracks := r.tracks.map (fun p => (p.1, ageTrack now p.2)) }

/-- RadarSystem::cleanupStaleTracks, src/src/core/radar_system.cpp lines
136-152: evict tracks older than MAX_TRACK_AGE_MS or below
MIN_TRACK_QUALITY. -/
def cleanupStaleTracks (r : RState) (now : ℕ) : RState :=
  { tracks := r.tracks.filter (fun p =>
      !(decide (MAX_TRACK_AGE_MS < now - p.2.last_update) ||
        decide (p.2.track_quality < MIN_TRACK_QUALITY))) }

/-- RadarSystem::removeAircraft, src/src/core/radar_system.cpp lines 30-46
(the track-map part): erase the track keyed by the callsign. -/
def removeAircraft (r : RState) (callsign : String) : RState :=
  { tracks := r.tracks.filter (fun p => !(p.1 == callsign)) }

/-- RadarSystem::getTrackedAircraft, src/src/core/radar_system.cpp lines
185-198: the states of the tracks whose quality reaches
MIN_TRACK_QUALITY. -/
def getTrackedAircraft (r : RState) : List ATC.AircraftState :=
  (r.tracks.filter (fun p =>
    decide (MIN_TRACK_QUALITY ≤ p.2.track_quality))).map (fun p => p.2.state)

/-- The radar states reachable from an empty track map through scans,
aging, eviction and removal. -/
inductive Reachable : RState → Prop where
  | init : Reachable ⟨[]⟩
  | primaryObs (r : RState) (st : ATC.AircraftState)
      (detected : ATC.Position) (now : ℕ) (h : Reachable r) :
      Reachable (primaryObs r st detected now)
  | updateTracks (r : RState) (now : ℕ) (h : Reachable r) :
      Reachable (updateTracks r now)
  | cleanupStaleTracks (r : RState) (now : ℕ) (h : Reachable r) :
      Reachable (cleanupStaleTracks r now)
  | removeAircraft (r : RState) (cs : String) (h : Reachable r) :
      Reachable (removeAircraft r cs)

end ATC.Radar

/-- A successful lookup returns a track stored in the list. -/
lemma findTrack_mem (l : List (String × ATC.Radar.RadarTrack)) (cs : String)
    (tr : ATC.Radar.RadarTrack) (h : ATC.Radar.findTrack l cs = some tr) :
    ∃ c, (c, tr) ∈ l := by
  induction l with
  | nil => simp [ATC.Radar.findTrack] at h
  | cons p rest ih =>
      obtain ⟨c, t0⟩ := p
      simp only [ATC.Radar.findTrack] at h
      split_ifs at h with hc
      · exact ⟨c, by simp [Option.some_inj.mp h]⟩
      · obtain ⟨c2, hc2⟩ := ih h
        exact ⟨c2, List.mem_cons_of_mem _ hc2⟩

/-- Write-or-refresh preserves a per-track predicate. -/
lemma upsertTrack_forall (Q : ATC.Radar.RadarTrack → Prop)
    (l : List (String × ATC.Radar.RadarTrack)) (cs : String)
    (tr : ATC.Radar.RadarTrack)
    (hl : ∀ p ∈ l, Q p.2) (htr : Q tr) :
    ∀ p ∈ ATC.Radar.upsertTrack l cs tr, Q p.2 := by
  induction l with
  | nil =>
      intro p hp
      simp only [ATC.Radar.upsertTrack, List.mem_singleton] at hp
      rw [hp]
      exact htr
  | cons q rest ih =>
      obtain ⟨c, t0⟩ := q
      intro p hp
      simp only [ATC.Radar.upsertTrack] at hp
      split_ifs at hp with hc
      · rcases List.mem_cons.mp hp with h1 | h2
        · rw [h1]; exact htr
        · exact hl p (List.mem_cons_of_mem _ h2)
      · rcases List.mem_cons.mp hp with h1 | h2
        · rw [h1]; exact hl (c, t0) (List.mem_cons_self _ _)
        · exact ih (fun q hq => hl q (List.mem_cons_of_mem _ hq)) p h2

/-- Every reachable radar state keeps every quality between 0 and 100. -/
lemma radar_quality_bounds (r : ATC.Radar.RState)
    (h : ATC.Radar.Reachable r) :
    ∀ p ∈ r.tracks, 0 ≤ p.2.track_quality ∧ p.2.track_quality ≤ 100 := by
  induction h with
  | init => intro p hp; simp at hp
  | primaryObs r st detected now h ih =>
      simp only [ATC.Radar.primaryObs]
      split_ifs with hv
      · have hold : 0 ≤ ((ATC.Radar.findTrack r.tracks
            st.callsign).getD ATC.Radar.defaultTrack).track_quality ∧
            ((ATC.Radar.findTrack r.tracks
            st.callsign).getD ATC.Radar.defaultTrack).track_quality ≤ 100 := by
          cases hf : ATC.Radar.findTrack r.tracks st.callsign with
          | none => simp [hf, ATC.Radar.defaultTrack]
          | some tr =>
              obtain ⟨c, hc⟩ := findTrack_mem _ _ _ hf
              simpa [hf] using ih (c, tr) hc
        obtain ⟨hold1, hold2⟩ := hold
        exact upsertTrack_forall
          (fun tr => 0 ≤ tr.track_quality ∧ tr.track_quality ≤ 100)
          r.tracks st.callsign _ ih
          ⟨le_min (by norm_num) (by omega), min_le_left _ _⟩
      · exact ih
  | updateTracks r now h ih =>
      intro p hp
      simp only [ATC.Radar.updateTracks, List.mem_map] at hp
      obtain ⟨q, hq, rfl⟩ := hp
      have := ih q hq
      simp only [ATC.Radar.ageTrack]
      split_ifs with hs
      · exact ⟨le_max_left _ _, max_le (by norm_num) (by omega)⟩
      · exact this
  | cleanupStaleTracks r now h ih =>
      intro p hp
      simp only [ATC.Radar.cleanupStaleTracks, List.mem_filter] at hp
      exact ih p hp.1
  | removeAircraft r cs h ih =>
      intro p hp
      simp only [ATC.Radar.removeAircraft, List.mem_filter] at hp
      exact ih p hp.1

/-! ## Claim C8 -/

/-- C8: every reachable radar state keeps every quality in the closed
interval from 0 to 100 (raised by 10 per primary observation, capped, and
lowered by 5 when stale, floored), and every state returned by
getTrackedAircraft stems from a track of quality at least
MIN_TRACK_QUALITY. -/
theorem C8_track_quality_invariant (r : ATC.Radar.RState)
    (h : ATC.Radar.Reachable r) :
    (∀ p ∈ r.tracks, 0 ≤ p.2.track_quality ∧ p.2.track_quality ≤ 100) ∧
    (∀ s ∈ ATC.Radar.getTrackedAircraft r,
      ∃ p ∈ r.tracks, p.2.state = s ∧
        ATC.Radar.MIN_TRACK_QUALITY ≤ p.2.track_quality) := by
  refine ⟨radar_quality_bounds r h, ?_⟩
  intro s hs
  simp only [ATC.Radar.getTrackedAircraft, List.mem_map, List.mem_filter] at hs
  obtain ⟨p, ⟨hp, hq⟩, rfl⟩ := hs
  exact ⟨p, hp, rfl, by simpa using hq⟩

/-- C8, witness: after one primary observation of an aircraft at a valid
position, the stored quality lies between 0 and 100. -/
theorem C8_track_quality_invariant_witness :
    0 ≤ ((ATC.Radar.findTrack
        (ATC.Radar.primaryObs ⟨[]⟩ ATC.defaultAircraftState
          ⟨0, 0, 20000⟩ 0).tracks "").getD
        ATC.Radar.defaultTrack).track_quality ∧
    ((ATC.Radar.findTrack
        (ATC.Radar.primaryObs ⟨[]⟩ ATC.defaultAircraftState
          ⟨0, 0, 20000⟩ 0).tracks "").getD
        ATC.Radar.defaultTrack).track_quality ≤ 100 := by
  have h := (C8_track_quality_invariant
      (ATC.Radar.primaryObs ⟨[]⟩ ATC.defaultAircraftState ⟨0, 0, 20000⟩ 0)
      (ATC.Radar.Reachable.primaryObs _ _ _ _ ATC.Radar.Reachable.init)).1
  cases hf : ATC.Radar.findTrack
      (ATC.Radar.primaryObs ⟨[]⟩ ATC.defaultAircraftState
        ⟨0, 0, 20000⟩ 0).tracks "" with
  | none => simp [ATC.Radar.defaultTrack]
  | some tr =>
      obtain ⟨c, hc⟩ := findTrack_mem _ _ _ hf
      simpa using h (c, tr) hc

namespace ATC.Load

/-!  The aircraft-data loaders.  Both drivers read the file line by line;
std::stod is an external library routine and is passed in as a parameter
mapping a token to its parsed value, or none when parsing throws. -/

/-- Split a character list at commas, accumulating the current field. -/
def splitAux : List Char → List Char → List String
  | acc, [] => [String.mk acc.reverse]
  | acc, c :: cs =>
      if c = ',' then String.mk acc.reverse :: splitAux [] cs
      else splitAux (c :: acc) cs

/-- The fields produced by repeated std::getline with a comma delimiter:
like splitting at commas, except that the empty field after a trailing
comma (or of an empty line) is not produced, because the final getline
extracts no characters and fails. -/
def csvTokens (line : String) : List String :=
  let ts := splitAux [] line.data
  if ts.getLast? = some "" then ts.dropLast else ts

/-- The data of one accepted CSV row: the constructed aircraft. -/
structure LoadedAircraft where
  callsign : String
  position : ATC.Position
  velocity : ATC.Velocity

/-- One row of ATCSystem::loadAircraftData, src/unnamed/part_019 lines
150-251: require 8 fields, parse the numeric fields, validate the position
against the airspace bounds and the speed against MIN_SPEED and MAX_SPEED;
any failure skips the row. -/
noncomputable def processLineB (stod : String → Option ℝ) (line : String) :
    Option LoadedAircraft :=
  match csvTokens line with
  | [t0, t1, t2, t3, t4, t5, t6, t7] =>
      match stod t0, stod t2, stod t3, stod t4, stod t5, stod t6, stod t7 with
      | some _, some x, some y, some z, some vx, some vy, some vz =>
          if x < ATC.AIRSPACE_X_MIN ∨ ATC.AIRSPACE_X_MAX < x ∨
             y < ATC.AIRSPACE_Y_MIN ∨ ATC.AIRSPACE_Y_MAX < y ∨
             z < ATC.AIRSPACE_Z_MIN ∨ ATC.AIRSPACE_Z_MAX < z then none
          else if Real.sqrt (vx * vx + vy * vy + vz * vz) < ATC.MIN_SPEED ∨
              ATC.MAX_SPEED < Real.sqrt (vx * vx + vy * vy + vz * vz) then
            none
          else some ⟨t1, ⟨x, y, z⟩, ⟨vx, vy, vz⟩⟩
      | _, _, _, _, _, _, _ => none
  | _ => none

/-- One row of ATCSystem::loadAircraftData, src/src/main.cpp lines 88-160:
identical to the part_019 iteration except that no speed validation is
performed. -/
noncomputable def processLineA (stod : String → Option ℝ) (line : String) :
    Option LoadedAircraft :=
  match csvTokens line with
  | [t0, t1, t2, t3, t4, t5, t6, t7] =>
      match stod t0, stod t2, stod t3, stod t4, stod t5, stod t6, stod t7 with
      | some _, some x, some y, some z, some vx, some vy, some vz =>
          if x < ATC.AIRSPACE_X_MIN ∨ ATC.AIRSPACE_X_MAX < x ∨
             y < ATC.AIRSPACE_Y_MIN ∨ ATC.AIRSPACE_Y_MAX < y ∨
             z < ATC.AIRSPACE_Z_MIN ∨ ATC.AIRSPACE_Z_MAX < z then none
          else some ⟨t1, ⟨x, y, z⟩, ⟨vx, vy, vz⟩⟩
      | _, _, _, _, _, _, _ => none
  | _ => none

/-- The body loop of both loaders: skip empty lines, process the rest, and
on any per-row failure continue with the remaining rows. -/
def loadLoop (f : String → Option LoadedAircraft) :
    List String → List LoadedAircraft
  | [] => []
  | line :: rest =>
      if line = "" then loadLoop f rest
      else
        match f line with
        | some a => a :: loadLoop f rest
        | none => loadLoop f rest

/-- ATCSystem::loadAircraftData of src/unnamed/part_019 lines 150-251:
check the header line, run the loop, succeed exactly when at least one
aircraft was accepted. -/
noncomputable def loadAircraftDataB (stod : String → Option ℝ)
    (lines : List String) : Bool × List LoadedAircraft :=
  match lines with
  | [] => (false, [])
  | header :: rows =>
      if header = "Time,ID,X,Y,Z,SpeedX,SpeedY,SpeedZ" then
        let acs := loadLoop (processLineB stod) rows
        (decide (0 < acs.length), acs)
      else (false, [])

/-- ATCSystem::loadAircraftData of src/src/main.cpp lines 88-160. -/
noncomputable def loadAircraftDataA (stod : String → Option ℝ)
    (lines : List String) : Bool × List LoadedAircraft :=
  match lines with
  | [] => (false, [])
  | header :: rows =>
      if header = "Time,ID,X,Y,Z,SpeedX,SpeedY,SpeedZ" then
        let acs := loadLoop (processLineA stod) rows
        (decide (0 < acs.length), acs)
      else (false, [])

end ATC.Load

/-- The loader loop accepts exactly the non-empty rows the row processor
accepts, in order. -/
lemma loadLoop_eq_filterMap (f : String → Option ATC.Load.LoadedAircraft)
    (rows : List String) :
    ATC.Load.loadLoop f rows =
      rows.filterMap (fun line => if line = "" then none else f line) := by
  induction rows with
  | nil => rfl
  | cons line rest ih =>
      simp only [ATC.Load.loadLoop, List.filterMap_cons]
      split_ifs with he
      · exact ih
      · cases hf : f line <;> simp [hf, ih]

/-! ## Claim C9 -/

/-- C9 (amended): the loader of src/unnamed/part_019 accepts exactly the
non-empty rows that pass every validation, continuing after each skipped
row; it succeeds exactly when at least one aircraft was accepted; and every
accepted aircraft has a valid position and a speed between MIN_SPEED and
MAX_SPEED.  (The loader iteration in src/src/main.cpp performs no speed
validation; see the counterexample.) -/
theorem C9_loadAircraftData_amended (stod : String → Option ℝ)
    (header : String) (rows : List String)
    (hh : header = "Time,ID,X,Y,Z,SpeedX,SpeedY,SpeedZ") :
    (ATC.Load.loadAircraftDataB stod (header :: rows)).2 =
        rows.filterMap (fun line =>
          if line = "" then none else ATC.Load.processLineB stod line) ∧
    ((ATC.Load.loadAircraftDataB stod (header :: rows)).1 = true ↔
      (ATC.Load.loadAircraftDataB stod (header :: rows)).2 ≠ []) ∧
    (∀ line a, ATC.Load.processLineB stod line = some a →
      a.position.isValid ∧
      ATC.MIN_SPEED ≤ a.velocity.getSpeed ∧
      a.velocity.getSpeed ≤ ATC.MAX_SPEED) := by
  subst hh
  simp only [ATC.Load.loadAircraftDataB, if_pos]
  refine ⟨loadLoop_eq_filterMap _ rows, ?_, ?_⟩
  · simp [List.length_pos]
  · intro line a h
    simp only [ATC.Load.processLineB] at h
    split at h
    case _ t0 t1 t2 t3 t4 t5 t6 t7 =>
      split at h
      case _ time x y z vx vy vz =>
        split_ifs at h with h1 h2
        injection h with he
        subst he
        push_neg at h1 h2
        obtain ⟨hx1, hx2, hy1, hy2, hz1, hz2⟩ := h1
        obtain ⟨hv1, hv2⟩ := h2
        refine ⟨⟨hx1, hx2, hy1, hy2, hz1, hz2⟩, ?_, ?_⟩
        · exact hv1
        · exact hv2
      case _ hne => exact absurd h (by simp)
    case _ hne => exact absurd h (by simp)

namespace ATC.Load

/-- A concrete std::stod table for the witness rows: each numeric token of
the rows, mapped as std::stod parses it. -/
noncomputable def stodTab : String → Option ℝ := fun s =>
  if s = "0" then some 0
  else if s = "20000" then some 20000
  else if s = "200" then some 200
  else if s = "1000" then some 1000
  else none

end ATC.Load

/-- C9, witness: a correct header followed by one fully valid row loads
successfully. -/
theorem C9_loadAircraftData_amended_witness :
    (ATC.Load.loadAircraftDataB ATC.Load.stodTab
      ["Time,ID,X,Y,Z,SpeedX,SpeedY,SpeedZ",
       "0,W1,0,0,20000,0,0,200"]).1 = true := by
  have h := C9_loadAircraftData_amended ATC.Load.stodTab
    "Time,ID,X,Y,Z,SpeedX,SpeedY,SpeedZ" ["0,W1,0,0,20000,0,0,200"] rfl
  refine h.2.1.mpr ?_
  rw [h.1]
  have htok : ATC.Load.csvTokens "0,W1,0,0,20000,0,0,200" =
      ["0", "W1", "0", "0", "20000", "0", "0", "200"] := by decide
  have hsqrt : Real.sqrt (40000:ℝ) = 200 := by
    rw [show (40000:ℝ) = 200 ^ 2 by norm_num, Real.sqrt_sq (by norm_num)]
  have hrow : ATC.Load.processLineB ATC.Load.stodTab
      "0,W1,0,0,20000,0,0,200" = some ⟨"W1", ⟨0, 0, 20000⟩, ⟨0, 0, 200⟩⟩ := by
    have e1 : (("20000":String) = "0") = False := eq_false (by decide)
    have e2 : (("200":String) = "0") = False := eq_false (by decide)
    have e3 : (("200":String) = "20000") = False := eq_false (by decide)
    simp only [ATC.Load.processLineB, htok, ATC.Load.stodTab, e1, e2, e3,
      if_true, if_false, eq_self_iff_true]
    rw [if_neg (by
      norm_num [ATC.AIRSPACE_X_MIN, ATC.AIRSPACE_X_MAX, ATC.AIRSPACE_Y_MIN,
        ATC.AIRSPACE_Y_MAX, ATC.AIRSPACE_Z_MIN, ATC.AIRSPACE_Z_MAX])]
    rw [if_neg (by
      norm_num [hsqrt, ATC.MIN_SPEED, ATC.MAX_SPEED])]
  simp [hrow]

/-- C9, counterexample: the loader iteration of src/src/main.cpp accepts a
row whose speed 1000 lies far above MAX_SPEED: the row is not skipped, and
the load succeeds with the over-speed aircraft registered, refuting the
claimed speed validation for that iteration. -/
theorem C9_counterexample :
    (ATC.Load.loadAircraftDataA ATC.Load.stodTab
      ["Time,ID,X,Y,Z,SpeedX,SpeedY,SpeedZ",
       "0,FAST1,0,0,20000,1000,0,0"]).1 = true ∧
    (ATC.Load.loadAircraftDataA ATC.Load.stodTab
      ["Time,ID,X,Y,Z,SpeedX,SpeedY,SpeedZ",
       "0,FAST1,0,0,20000,1000,0,0"]).2 =
      [⟨"FAST1", ⟨0, 0, 20000⟩, ⟨1000, 0, 0⟩⟩] ∧
    ATC.MAX_SPEED < (ATC.Velocity.mk 1000 0 0).getSpeed := by
  have htok : ATC.Load.csvTokens "0,FAST1,0,0,20000,1000,0,0" =
      ["0", "FAST1", "0", "0", "20000", "1000", "0", "0"] := by decide
  have e1 : (("20000":String) = "0") = False := eq_false (by decide)
  have e4 : (("1000":String) = "0") = False := eq_false (by decide)
  have e5 : (("1000":String) = "20000") = False := eq_false (by decide)
  have e6 : (("1000":String) = "200") = False := eq_false (by decide)
  have e7 : (("0,FAST1,0,0,20000,1000,0,0":String) = "") = False :=
    eq_false (by decide)
  have hrow : ATC.Load.processLineA ATC.Load.stodTab
      "0,FAST1,0,0,20000,1000,0,0" =
      some ⟨"FAST1", ⟨0, 0, 20000⟩, ⟨1000, 0, 0⟩⟩ := by
    simp only [ATC.Load.processLineA, htok, ATC.Load.stodTab, e1, e4, e5, e6,
      if_true, if_false, eq_self_iff_true]
    rw [if_neg (by
      norm_num [ATC.AIRSPACE_X_MIN, ATC.AIRSPACE_X_MAX, ATC.AIRSPACE_Y_MIN,
        ATC.AIRSPACE_Y_MAX, ATC.AIRSPACE_Z_MIN, ATC.AIRSPACE_Z_MAX])]
  refine ⟨?_, ?_, ?_⟩
  · simp [ATC.Load.loadAircraftDataA, ATC.Load.loadLoop, hrow, e7]
  · simp [ATC.Load.loadAircraftDataA, ATC.Load.loadLoop, hrow, e7]
  · simp only [ATC.Velocity.getSpeed, ATC.MAX_SPEED]
    rw [show ((1000:ℝ) * 1000 + 0 * 0 + 0 * 0) = 1000 ^ 2 by norm_num,
      Real.sqrt_sq (by norm_num)]
    norm_num

namespace ATC.VDB

/-- A member of conflict_queue_ in the channel-constructed detector, as
pushed by checkViolations (src/src/core/violation_detector.cpp lines
292-297): the pair of the stored prediction, the steady-clock second of
detection, and the resolution_attempted flag.  The remaining prediction
fields and the pre-computed actions do not influence the control flow of
the queue loop and are omitted. -/
structure QueuedConflict where
  aircraft1_id : String
  aircraft2_id : String
  detection_time : ℕ
  resolution_attempted : Bool

/-- The queue-processing loop of ViolationDetector::execute,
src/src/core/violation_detector.cpp lines 225-249: while the queue is
non-empty, the front conflict, when not yet attempted and at least
WARNING_COOLDOWN seconds old, is handed to handlePredictedConflict of this
iteration (lines 251-269, which always logs the warning; no per-pair
cooldown map exists here) and marked attempted; afterwards the front is
popped when older than the lookahead and the loop continues, otherwise the
loop breaks.  Returns the queue after the call together with the pairs
warned during the call. -/
def executeQueue (now lookahead : ℕ) :
    List QueuedConflict → List QueuedConflict × List (String × String)
  | [] => ([], [])
  | c :: rest =>
      let fire := !c.resolution_attempted &&
        decide (ATC.WARNING_COOLDOWN ≤ now - c.detection_time)
      let c2 := if fire then { c with resolution_attempted := true } else c
      let warned : List (String × String) :=
        if fire then [(c.aircraft1_id, c.aircraft2_id)] else []
      if lookahead < now - c.detection_time then
        let r := executeQueue now lookahead rest
        (r.1, warned ++ r.2)
      else (c2 :: rest, warned)

end ATC.VDB

/-- C7, counterexample: in the channel-constructed detector the queue loop
of execute enforces no per-pair window.  With a conflict for the pair P, Q
persisting from time 0 (checkViolations queues a fresh entry every cycle;
the head entry was warned and marked at time 15), the execute call at time
181 pops the aged head and warns the pair again from the entry detected at
time 1, and the call at time 182 warns the same pair once more from the
entry detected at time 2: two warnings for one pair a single second apart,
inside the claimed WARNING_COOLDOWN window. -/
theorem C7_counterexample :
    (ATC.VDB.executeQueue 181 ATC.DEFAULT_LOOKAHEAD_TIME
        [⟨"P", "Q", 0, true⟩, ⟨"P", "Q", 1, false⟩,
         ⟨"P", "Q", 2, false⟩]).2 = [("P", "Q")] ∧
    (ATC.VDB.executeQueue 182 ATC.DEFAULT_LOOKAHEAD_TIME
        (ATC.VDB.executeQueue 181 ATC.DEFAULT_LOOKAHEAD_TIME
          [⟨"P", "Q", 0, true⟩, ⟨"P", "Q", 1, false⟩,
           ⟨"P", "Q", 2, false⟩]).1).2 = [("P", "Q")] ∧
    182 - 181 < ATC.WARNING_COOLDOWN := by
  decide
